import Mathlib

/-!
Verification development for the Cassius-tv discovery pipeline.

Shallow embedding of:
* `src/api/perplexity.ts` (`PerplexityDiscovery`): taste-profile building,
  query generation, concurrent search fan-out, text-fallback extraction,
  deduplication, ranking, truncation;
* `src/api/tmdb.ts` (`TMDBClient`): catalog search, details, watch providers,
  genre lookup, enrichment, stream-URL synthesis;
* `src/index.tsx` `POST /api/discover` handler: credential validation, store
  reads, history filtering, enrichment fan-out, persistence (insert-or-ignore
  content rows, history upsert), response partitioning;
* `migrations/0002_add_sports_and_history.sql` `recommendation_history`
  (UNIQUE title, default BINARY collation) and `content` (UNIQUE tmdb_id)
  constraints.

Modelling conventions used throughout:
* JavaScript values that the code only tests for truthiness are modelled as
  `Option`, with `none` standing for any falsy value (undefined / null /
  empty string), except where a falsy-but-present value is observably
  distinct (then it is modelled explicitly, e.g. `recommendations_per_type`
  as a `Nat` where `0` is falsy).
* Network effects are modelled by oracles: a function from request data to a
  response outcome. `Promise.all` fan-out/fan-in joins results in launch
  order, so a pipeline stage is the in-order `map` of per-item results.
* JS `Array.prototype.sort` (stable since ES2019) is modelled by a stable
  insertion sort with `le a b` meaning "comparator(a,b) ≤ 0".
* `String.prototype.toLowerCase` is modelled ASCII-only (`Char.toLower`);
  all titles in the claims are ASCII.
* Numbers carrying confidence scores / vote averages are modelled as `Rat`.
* URL percent-encoding (`encodeURIComponent`) is not modelled (identity);
  no claim depends on the escaping.
* The free-text fallback parser's per-line regular-expression match is
  abstracted: an input line is modelled as its match result (no match, or
  the captured title/provider plus the tv-keyword flag); no claim depends
  on the regex itself.
-/

namespace CassiusTV

/-- Content kind of a discovered candidate (`'movie' | 'tv'` in
`DiscoveredContent`). -/
inductive CType
  | movie
  | tv
deriving DecidableEq, Repr

/-- Content kind as stored in the `content` table
(`CHECK (type IN ('movie','tv','sports'))`). -/
inductive LibType
  | movie
  | tv
  | sports
deriving DecidableEq, Repr

/-- Embeds a `CType` into the `content`-table kind. -/
def CType.toLibType : CType → LibType
  | .movie => .movie
  | .tv => .tv

/-- ASCII model of `String.prototype.toLowerCase`. -/
def jsToLower (s : String) : String := String.mk (s.data.map Char.toLower)

/-- Substring test, modelling JS `String.prototype.includes`. -/
def listIncludesAux (pat : List Char) : List Char → Bool
  | [] => pat == []
  | c :: t => pat.isPrefixOf (c :: t) || listIncludesAux pat t

/-- Substring test on strings (`haystack.includes(needle)`). -/
def strIncludes (s pat : String) : Bool := listIncludesAux pat.data s.data

/-- JS `encodeURIComponent`, left as the identity: percent-encoding is not
modelled and no claim depends on it. -/
def encodeURIComponent (s : String) : String := s

/-- Stable insertion of `a` into `l`: `a` goes after every element `b` with
`le b a` (comparator(b,a) ≤ 0), i.e. earlier elements win ties. -/
def jsInsert {α : Type} (le : α → α → Bool) (a : α) : List α → List α
  | [] => [a]
  | b :: t => if le b a then b :: jsInsert le a t else a :: b :: t

/-- Stable sort modelling `Array.prototype.sort` with a consistent
comparator, where `le a b` means "comparator(a,b) ≤ 0". -/
def jsStableSort {α : Type} (le : α → α → Bool) (l : List α) : List α :=
  l.foldl (fun acc a => jsInsert le a acc) []

/-- A row of the `content` table (the fields the pipeline reads or writes).
`genre` is `none` for a falsy (NULL/empty) genre column. -/
structure ContentRow where
  id : Nat
  tmdb_id : Option String := none
  title : String
  type : LibType
  poster_url : Option String := none
  backdrop_url : Option String := none
  stream_url : Option String := none
  overview : Option String := none
  release_year : Option Nat := none
  runtime : Option Nat := none
  seasons : Option Nat := none
  episodes : Option Nat := none
  genre : Option String := none
  source : Option String := none
  in_library : Bool := false
deriving DecidableEq, Repr

/-- A row of the `ratings` table as consumed by `buildUserContext`. -/
structure RatingRow where
  content_id : Nat
  rating : Int
deriving DecidableEq, Repr

/-- The preferences record; only `recommendations_per_type` is read by the
discovery pipeline.  Modelled as `Nat`: `0` is JS-falsy. -/
structure Prefs where
  recommendations_per_type : Nat
deriving DecidableEq, Repr

/-- Default preferences built inline in the `/api/discover` handler when the
store is absent or holds no row. -/
def defaultPrefs : Prefs := { recommendations_per_type := 12 }

/-- The taste-profile object produced by
`PerplexityDiscovery.buildUserContext`.  `favoriteGenres` models the JS
`Set` as an insertion-ordered duplicate-free list. -/
structure UserContext where
  favoriteGenres : List String
  highRatedTitles : List String
  lowRatedTitles : List String
  movieCount : Nat
  tvCount : Nat
  isEmpty : Bool
deriving DecidableEq, Repr

/-- JS `Set.add`: append if not already present (insertion order kept). -/
def setAdd (s : List String) (g : String) : List String :=
  if g ∈ s then s else s ++ [g]

/-- The per-item genre collection step of `buildUserContext`:
`if (item.genre) favoriteGenres.add(item.genre)`. -/
def genreStep (acc : List String) (it : ContentRow) : List String :=
  match it.genre with
  | some g => setAdd acc g
  | none => acc

/-- The per-rating bucketing step of `buildUserContext`: look the rating's
`content_id` up with `Array.find` (first matching library item); rating ≥ 4
appends to liked, else rating ≤ 2 appends to disliked; is skipped
otherwise, and skipped silently when no library item matches. -/
def ratingStep (library : List ContentRow) (acc : List String × List String)
    (r : RatingRow) : List String × List String :=
  match library.find? (fun it => it.id == r.content_id) with
  | some content =>
    if r.rating ≥ (4 : Int) then (acc.1 ++ [content.title], acc.2)
    else if r.rating ≤ (2 : Int) then (acc.1, acc.2 ++ [content.title])
    else acc
  | none => acc

/-- `PerplexityDiscovery.buildUserContext(library, ratings)`:
collects distinct genre labels and per-kind counts from the library, then
buckets rated titles (rating ≥ 4 liked, ≤ 2 disliked), looking each rating's
`content_id` up in the library with `Array.find` (first match); ratings with
no matching library item are silently skipped.  `isEmpty` is
`library.length === 0`. -/
def buildUserContext (library : List ContentRow) (ratings : List RatingRow) :
    UserContext :=
  let favs := library.foldl genreStep []
  let movieCount := (library.filter (fun it => it.type == LibType.movie)).length
  let tvCount := (library.filter (fun it => it.type == LibType.tv)).length
  let buckets := ratings.foldl (ratingStep library) ([], [])
  { favoriteGenres := favs
    highRatedTitles := buckets.1
    lowRatedTitles := buckets.2
    movieCount := movieCount
    tvCount := tvCount
    isEmpty := library.length == 0 }

/-- The fixed cold-start query list emitted by `generateSmartQueries` when
the library is empty (`year` is `new Date().getFullYear()`). -/
def coldStartQueries (year : Nat) : List String :=
  [ "What are 12 highly rated movies from " ++ toString (year - 5) ++ " to "
      ++ toString year
      ++ " with IMDb rating 7.0 or higher? Give me just the movie titles."
  , "What are 12 critically acclaimed TV shows from " ++ toString (year - 3)
      ++ " to " ++ toString year ++ "? Give me just the show titles."
  , "What are 8 underrated hidden gem movies that film critics love? Give me just the movie titles."
  , "What are 8 must-watch thriller movies from " ++ toString (year - 5)
      ++ " to " ++ toString year ++ "? Give me just the movie titles." ]

/-- `PerplexityDiscovery.generateSmartQueries(context, preferences)`.
The `preferences` argument is accepted but unused, as in the source.
Cold start returns the fixed list; otherwise up to 2 similar-title queries,
2 queries per first 2 favorite genres, and 1 recent-releases query, then
`slice(0, 6)`. -/
def generateSmartQueries (year : Nat) (context : UserContext)
    (_preferences : Prefs) : List String :=
  if context.isEmpty then coldStartQueries year
  else
    let similar := match context.highRatedTitles with
      | [] => []
      | t0 :: rest =>
        let q0 := "What are 12 movies similar to \"" ++ t0
          ++ "\" with same genre and themes? Give me just the movie titles."
        match rest with
        | [] => [q0]
        | t1 :: _ => [q0,
            "What are 12 movies like \"" ++ t1
              ++ "\" that fans would enjoy? Give me just the movie titles."]
    let genreQs := (context.favoriteGenres.take 2).foldl
      (fun acc genre => acc ++
        [ "What are 12 best " ++ genre ++ " movies from "
            ++ toString (year - 10) ++ " to " ++ toString year
            ++ "? Give me just the movie titles."
        , "What are 8 highly rated " ++ genre
            ++ " TV shows worth watching? Give me just the show titles." ]) []
    let recentQ := match context.favoriteGenres with
      | [] => []
      | topGenre :: _ =>
        [ "What are 12 recent " ++ topGenre ++ " movies from "
            ++ toString (year - 2) ++ " to " ++ toString year
            ++ " with great reviews? Give me just the movie titles." ]
    (similar ++ genreQs ++ recentQ).take 6

/-- A discovery candidate (`DiscoveredContent` in `perplexity.ts`). -/
structure DiscoveredContent where
  title : String
  type : CType
  streamUrl : Option String := none
  provider : Option String := none
  confidence : Rat := 0
deriving DecidableEq, Repr

/-- Match result for one line of a free-text response: the abstraction of
the `extractContentFromText` per-line regular expression.  `hit` carries the
captured title, the optional trailing provider capture, and whether the line
contains a tv keyword (`series|show|season`, case-insensitive). -/
inductive MsgLine
  | noMatch
  | hit (title : String) (provider : Option String) (isTV : Bool)
deriving DecidableEq, Repr

/-- The first choice's message content of a chat-completion response:
either it JSON-parses to an array of candidates, JSON-parses to a non-array
value, or fails to parse and is handed to the line-oriented fallback. -/
inductive MsgContent
  | jsonArr (items : List DiscoveredContent)
  | jsonOther
  | text (lines : List MsgLine)
deriving Repr

/-- Outcome of one Perplexity HTTP call: a transport-level exception, or a
response with its `ok` flag and the (possibly absent/falsy) message
content. -/
inductive FetchOutcome
  | throws
  | resp (ok : Bool) (content : Option MsgContent)
deriving Repr

/-- An oracle giving the network outcome of each query string. -/
def PerplexityNet : Type := String → FetchOutcome

/-- `PerplexityDiscovery.extractContentFromText`: each matched line yields a
candidate with kind guessed from tv keywords and fixed confidence 0.7. -/
def extractContentFromText (lines : List MsgLine) : List DiscoveredContent :=
  lines.foldl
    (fun acc l => match l with
      | .noMatch => acc
      | .hit title provider isTV => acc ++
          [{ title := title
             type := if isTV then CType.tv else CType.movie
             provider := provider
             confidence := mkRat 7 10 }]) []

/-- `PerplexityDiscovery.searchForContent(query)`: a transport exception, a
non-2xx status, a missing/falsy message content, or a JSON value that is not
an array each yield `[]`; a JSON array yields its items; otherwise the text
fallback runs.  All failures are caught inside the function. -/
def searchForContent (net : PerplexityNet) (query : String) :
    List DiscoveredContent :=
  match net query with
  | .throws => []
  | .resp ok content =>
    if !ok then []
    else match content with
      | none => []
      | some (.jsonArr items) => items
      | some .jsonOther => []
      | some (.text lines) => extractContentFromText lines

/-- Dedup key of `deduplicateContent`:
`` `${item.title.toLowerCase()}_${item.type}` ``. -/
def dedupKey (c : DiscoveredContent) : String :=
  jsToLower c.title ++ "_" ++ (match c.type with
    | .movie => "movie"
    | .tv => "tv")

/-- Seen-set filter underlying `deduplicateContent`. -/
def dedupAux (seen : List String) : List DiscoveredContent →
    List DiscoveredContent
  | [] => []
  | c :: rest =>
    if seen.contains (dedupKey c) then dedupAux seen rest
    else c :: dedupAux (dedupKey c :: seen) rest

/-- `PerplexityDiscovery.deduplicateContent`: first occurrence per
`(lowercase title, kind)` key wins. -/
def deduplicateContent (content : List DiscoveredContent) :
    List DiscoveredContent :=
  dedupAux [] content

/-- The `rankContent` comparator as a "comparator(a,b) ≤ 0" predicate:
stream-URL carriers first, then descending confidence. -/
def rankLE (a b : DiscoveredContent) : Bool :=
  if a.streamUrl.isSome && !b.streamUrl.isSome then true
  else if !a.streamUrl.isSome && b.streamUrl.isSome then false
  else b.confidence ≤ a.confidence

/-- `PerplexityDiscovery.rankContent`: stable sort by `rankLE`. -/
def rankContent (content : List DiscoveredContent) : List DiscoveredContent :=
  jsStableSort rankLE content

/-- `PerplexityDiscovery.discoverContent`: build context, generate queries,
fan the searches out (results joined in query order), flatten, deduplicate,
rank, and truncate to `count`. -/
def discoverContent (net : PerplexityNet) (year : Nat)
    (userLibrary : List ContentRow) (ratings : List RatingRow)
    (preferences : Prefs) (count : Nat) : List DiscoveredContent :=
  let context := buildUserContext userLibrary ratings
  let queries := generateSmartQueries year context preferences
  let searchResults := queries.map (searchForContent net)
  let allContent := deduplicateContent searchResults.flatten
  let rankedContent := rankContent allContent
  rankedContent.take count

/-- `discoverContentWithPerplexity`: `count` is
`preferences.recommendations_per_type || 12` (`0` is falsy). -/
def discoverContentWithPerplexity (net : PerplexityNet) (year : Nat)
    (userLibrary : List ContentRow) (ratings : List RatingRow)
    (preferences : Prefs) : List DiscoveredContent :=
  discoverContent net year userLibrary ratings preferences
    (if preferences.recommendations_per_type == 0 then 12
     else preferences.recommendations_per_type)

/-- A TMDB search/details payload item (`TMDBContent` in `tmdb.ts`).
`release_date` / `first_air_date` are abstracted to the year they parse to
(`none` when absent: `new Date('')` yields NaN). -/
structure TMDBContent where
  id : Nat
  title : Option String := none
  name : Option String := none
  poster_path : Option String := none
  backdrop_path : Option String := none
  overview : Option String := none
  release_date : Option Nat := none
  first_air_date : Option Nat := none
  vote_average : Option Rat := none
  genre_ids : Option (List Nat) := none
deriving DecidableEq, Repr

/-- The details payload fields read by `enrichContent`.  `genres` models
`details.genres` as the list of genre names (`details.genres?.map(g =>
g.name)`); `none` when the field is absent. -/
structure TMDBDetails where
  runtime : Option Nat := none
  number_of_seasons : Option Nat := none
  number_of_episodes : Option Nat := none
  genres : Option (List String) := none
deriving DecidableEq, Repr

/-- A watch provider entry (`TMDBWatchProvider`); only the fields the code
reads. -/
structure TMDBWatchProvider where
  provider_id : Nat
  provider_name : String
deriving DecidableEq, Repr

/-- Region-scoped provider listings (`data.results[region]`). -/
structure RegionListings where
  free : Option (List TMDBWatchProvider) := none
  ads : Option (List TMDBWatchProvider) := none
  flatrate : Option (List TMDBWatchProvider) := none
deriving DecidableEq, Repr

/-- Outcome of the TMDB search call. -/
inductive SearchOutcome
  | throws
  | notOk
  | ok (results : Option (List TMDBContent))
deriving Repr

/-- Outcome of the TMDB details call. -/
inductive DetailsOutcome
  | throws
  | notOk
  | ok (details : TMDBDetails)
deriving Repr

/-- Outcome of the TMDB watch-providers call (`region` is the default
`'US'`; the code never passes another region). -/
inductive ProvidersOutcome
  | throws
  | notOk
  | ok (region : Option RegionListings)
deriving Repr

/-- Outcome of the combined movie+tv genre-list calls in `getGenres`: one
`throws` aborts both (they run under one try), else each list's `genres`
field may be absent.  `getGenres` never checks `response.ok`, so a non-2xx
JSON body is just a payload with `genres` absent. -/
inductive GenresOutcome
  | throws
  | ok (movieGenres : Option (List (Nat × String)))
      (tvGenres : Option (List (Nat × String)))
deriving Repr

/-- Oracle for the four TMDB operations. -/
structure TMDBNet where
  search : String → CType → SearchOutcome
  details : Nat → CType → DetailsOutcome
  providers : Nat → CType → ProvidersOutcome
  genres : GenresOutcome

/-- `TMDBClient.searchContent(title, type)`: transport failure or non-2xx
yield `null`; otherwise `data.results?.[0] || null`. -/
def searchContent (net : TMDBNet) (title : String) (type : CType) :
    Option TMDBContent :=
  match net.search title type with
  | .throws => none
  | .notOk => none
  | .ok results => (results.getD []).head?

/-- `TMDBClient.getDetails(id, type)`: transport failure or non-2xx yield
`null`; otherwise the parsed payload. -/
def getDetails (net : TMDBNet) (id : Nat) (type : CType) :
    Option TMDBDetails :=
  match net.details id type with
  | .throws => none
  | .notOk => none
  | .ok details => some details

/-- The fixed free-service allow-list of `getWatchProviders`. -/
def freeProviders : List String :=
  ["Tubi TV", "Pluto TV", "The Roku Channel", "Crackle", "Plex", "Peacock",
   "Freevee"]

/-- `TMDBClient.getWatchProviders(id, type)`: any failure or missing region
data yields `[]`; otherwise free ++ ads ++ flatrate filtered to providers
whose name contains an allow-list entry. -/
def getWatchProviders (net : TMDBNet) (id : Nat) (type : CType) :
    List TMDBWatchProvider :=
  match net.providers id type with
  | .throws => []
  | .notOk => []
  | .ok none => []
  | .ok (some regionData) =>
    let providers := regionData.free.getD [] ++ regionData.ads.getD []
      ++ regionData.flatrate.getD []
    providers.filter (fun p =>
      freeProviders.any (fun free => strIncludes p.provider_name free))

/-- JS `Map.get` over an insertion list where later `set`s win. -/
def mapGet (m : List (Nat × String)) (k : Nat) : Option String :=
  (m.reverse.find? (fun e => e.1 == k)).map (fun e => e.2)

/-- `TMDBClient.getGenres()`: one combined id→name map from the movie and tv
genre lists; any exception yields an empty map. -/
def getGenres (net : TMDBNet) : List (Nat × String) :=
  match net.genres with
  | .throws => []
  | .ok movieGenres tvGenres => movieGenres.getD [] ++ tvGenres.getD []

/-- The enriched record built by `TMDBClient.enrichContent`
(`EnrichedContent` in `tmdb.ts`).  `stream_urls` is always assigned before
the record is returned, so it is not optional here. -/
structure EnrichedContent where
  tmdb_id : String
  title : String
  type : CType
  poster_url : Option String := none
  backdrop_url : Option String := none
  overview : Option String := none
  release_year : Option Nat := none
  runtime : Option Nat := none
  seasons : Option Nat := none
  episodes : Option Nat := none
  genres : List String := []
  rating : Option Rat := none
  providers : List TMDBWatchProvider := []
  stream_urls : List String := []
deriving DecidableEq, Repr

/-- Seen-set string dedup modelling `[...new Set(urls)]` (first occurrence
order). -/
def dedupStrAux (seen : List String) : List String → List String
  | [] => []
  | s :: rest =>
    if seen.contains s then dedupStrAux seen rest
    else s :: dedupStrAux (s :: seen) rest

/-- `TMDBClient.generateStreamUrls(title, providers)`: three fixed
search-by-title URLs, plus provider-specific URLs for Tubi TV / The Roku
Channel / Plex, deduplicated. -/
def generateStreamUrls (title : String)
    (providers : List TMDBWatchProvider) : List String :=
  let searchTitle := encodeURIComponent title
  let base :=
    [ "https://tubitv.com/search?q=" ++ searchTitle
    , "https://www.roku.com/whats-on/search/" ++ searchTitle
    , "https://pluto.tv/en/search?query=" ++ searchTitle ]
  let urls := providers.foldl
    (fun acc p =>
      if p.provider_name == "Tubi TV" then
        acc ++ ["https://tubitv.com/search?q=" ++ searchTitle]
      else if p.provider_name == "The Roku Channel" then
        acc ++ ["https://www.roku.com/whats-on/search/" ++ searchTitle]
      else if p.provider_name == "Plex" then
        acc ++ ["https://watch.plex.tv/search?query=" ++ searchTitle]
      else acc) base
  dedupStrAux [] urls

/-- The genre-name resolution of `enrichContent`:
`details.genres?.map(g => g.name) ||
 searchResult.genre_ids?.map(id => genreMap.get(id)).filter(Boolean) || []`
(an array, even empty, is truthy; `filter(Boolean)` drops missing lookups
and empty names). -/
def resolveGenres (details : TMDBDetails) (searchResult : TMDBContent)
    (genreMap : List (Nat × String)) : List String :=
  match details.genres with
  | some gl => gl
  | none =>
    match searchResult.genre_ids with
    | some ids =>
      (ids.map (mapGet genreMap)).foldl
        (fun acc o => match o with
          | some s => if s == "" then acc else acc ++ [s]
          | none => acc) []
    | none => []

/-- `TMDBClient.enrichContent(title, type)`: search (null short-circuits),
details (null short-circuits), providers and genres (failures degrade to
empty), then the enriched record with type-specific details and synthesized
stream URLs. -/
def enrichContent (net : TMDBNet) (title : String) (type : CType) :
    Option EnrichedContent :=
  match searchContent net title type with
  | none => none
  | some searchResult =>
    match getDetails net searchResult.id type with
    | none => none
    | some details =>
      let providers := getWatchProviders net searchResult.id type
      let genreMap := getGenres net
      let genres := resolveGenres details searchResult genreMap
      let enrichedTitle := match type with
        | .movie => searchResult.title.getD title
        | .tv => searchResult.name.getD title
      some
        { tmdb_id := toString searchResult.id
          title := enrichedTitle
          type := type
          poster_url := searchResult.poster_path.map
            (fun p => "https://image.tmdb.org/t/p/w500" ++ p)
          backdrop_url := searchResult.backdrop_path.map
            (fun p => "https://image.tmdb.org/t/p/w1280" ++ p)
          overview := searchResult.overview
          release_year := match type with
            | .movie => searchResult.release_date
            | .tv => searchResult.first_air_date
          rating := searchResult.vote_average
          genres := genres
          providers := providers
          runtime := match type with
            | .movie => details.runtime
            | .tv => none
          seasons := match type with
            | .movie => none
            | .tv => details.number_of_seasons
          episodes := match type with
            | .movie => none
            | .tv => details.number_of_episodes
          stream_urls := generateStreamUrls enrichedTitle providers }

/-- `enrichContentWithTMDB`: thin wrapper over `enrichContent`. -/
def enrichContentWithTMDB (net : TMDBNet) (title : String) (type : CType) :
    Option EnrichedContent :=
  enrichContent net title type

/-- A row of `recommendation_history` (`title TEXT NOT NULL UNIQUE`, default
BINARY collation).  `recommended_at` is in days. -/
structure HistRow where
  tmdb_id : Option String := none
  title : String
  type : LibType
  genre : Option String := none
  recommended_at : Nat
  shown_count : Nat
deriving DecidableEq, Repr

/-- The persistent store visible to the `/api/discover` handler. -/
structure DBData where
  content : List ContentRow := []
  ratings : List RatingRow := []
  prefs : Option Prefs := none
  history : List HistRow := []
  nextContentId : Nat := 1
deriving Repr

/-- The environment bindings the handler reads; `none` models an absent or
empty (falsy) credential. -/
structure Env where
  perplexityKey : Option String := none
  tmdbKey : Option String := none
deriving DecidableEq, Repr

/-- A key fails the handler's guard when it is falsy or equals its
placeholder value. -/
def isInvalidKey (key : Option String) (placeholder : String) : Bool :=
  match key with
  | none => true
  | some s => s == "" || s == placeholder

/-- A record of the final merged list sent back by `/api/discover`
(Perplexity data merged with TMDB data, or the bare fallback). -/
structure ResultRecord where
  tmdb_id : Option String := none
  title : String
  type : CType
  poster_url : Option String := none
  backdrop_url : Option String := none
  overview : Option String := none
  release_year : Option Nat := none
  runtime : Option Nat := none
  seasons : Option Nat := none
  episodes : Option Nat := none
  genres : Option (List String) := none
  rating : Option Rat := none
  providers : Option (List TMDBWatchProvider) := none
  stream_url : Option String := none
  stream_urls : Option (List String) := none
  source : String
deriving DecidableEq, Repr

/-- The per-candidate enrichment step of the handler: merge TMDB data with a
working Tubi search URL, or fall back to the bare Perplexity data when
enrichment returned `null`. -/
def enrichStep (net : TMDBNet) (item : DiscoveredContent) : ResultRecord :=
  match enrichContentWithTMDB net item.title item.type with
  | some enriched =>
    let searchUrl := "https://tubitv.com/search?q="
      ++ encodeURIComponent enriched.title
    { tmdb_id := some enriched.tmdb_id
      title := enriched.title
      type := enriched.type
      poster_url := enriched.poster_url
      backdrop_url := enriched.backdrop_url
      overview := enriched.overview
      release_year := enriched.release_year
      runtime := enriched.runtime
      seasons := enriched.seasons
      episodes := enriched.episodes
      genres := some enriched.genres
      rating := enriched.rating
      providers := some enriched.providers
      stream_url := some searchUrl
      stream_urls := some enriched.stream_urls
      source := "recommendation" }
  | none =>
    { title := item.title
      type := item.type
      stream_url := item.streamUrl
      source := "recommendation" }

/-- `value || null` for an optional string: an empty string is falsy. -/
def strOrNull (o : Option String) : Option String :=
  match o with
  | some "" => none
  | x => x

/-- `value || null` for an optional number: zero is falsy. -/
def natOrNull (o : Option Nat) : Option Nat :=
  match o with
  | some 0 => none
  | x => x

/-- `content.genres?.join(', ') || null`: absent list, or a join that comes
out as the empty string, binds NULL. -/
def genreField (genres : Option (List String)) : Option String :=
  match genres with
  | none => none
  | some l =>
    let s := String.intercalate ", " l
    if s == "" then none else some s

/-- The `INSERT OR IGNORE INTO content` statement: ignored when the bound
`tmdb_id` is non-NULL and an existing row carries the same `tmdb_id`
(`tmdb_id TEXT UNIQUE`; NULLs never conflict), else a new non-library row is
appended. -/
def insertContentRow (d : DBData) (content : ResultRecord) : DBData :=
  let boundTmdb := strOrNull content.tmdb_id
  let conflict := match boundTmdb with
    | some t => d.content.any (fun r => r.tmdb_id == some t)
    | none => false
  if conflict then d
  else
    { d with
      content := d.content ++
        [{ id := d.nextContentId
           tmdb_id := boundTmdb
           title := content.title
           type := content.type.toLibType
           poster_url := strOrNull content.poster_url
           backdrop_url := strOrNull content.backdrop_url
           stream_url := strOrNull content.stream_url
           overview := strOrNull content.overview
           release_year := natOrNull content.release_year
           runtime := natOrNull content.runtime
           seasons := natOrNull content.seasons
           episodes := natOrNull content.episodes
           genre := genreField content.genres
           source := some content.source
           in_library := false }]
      nextContentId := d.nextContentId + 1 }

/-- The history upsert: `INSERT INTO recommendation_history ... ON
CONFLICT(title) DO UPDATE SET shown_count = shown_count + 1, recommended_at
= CURRENT_TIMESTAMP`.  The conflict target is the case-sensitive UNIQUE
`title` column. -/
def upsertHistory (history : List HistRow) (content : ResultRecord)
    (now : Nat) : List HistRow :=
  if history.any (fun r => r.title == content.title) then
    history.map (fun r =>
      if r.title == content.title then
        { r with shown_count := r.shown_count + 1, recommended_at := now }
      else r)
  else
    history ++
      [{ tmdb_id := strOrNull content.tmdb_id
         title := content.title
         type := content.type.toLibType
         genre := genreField content.genres
         recommended_at := now
         shown_count := 1 }]

/-- Persistence of one enriched record: content insert-or-ignore, then the
history upsert. -/
def persistItem (d : DBData) (content : ResultRecord) (now : Nat) : DBData :=
  let d1 := insertContentRow d content
  { d1 with history := upsertHistory d1.history content now }

/-- The lowercase title set of the history rows recommended in the last 30
days (`recommended_at > datetime('now','-30 days')`). -/
def recentHistoryTitles (history : List HistRow) (now : Nat) : List String :=
  (history.filter (fun r => now < r.recommended_at + 30)).map
    (fun h => jsToLower h.title)

/-- The handler's history filter: drop candidates whose lowercase title is
in the recent-history title set. -/
def historyFilter (historyTitles : List String)
    (discovered : List DiscoveredContent) : List DiscoveredContent :=
  discovered.filter (fun item => !(historyTitles.contains (jsToLower item.title)))

/-- The response payload of a successful `/api/discover` request. -/
structure SuccessPayload where
  movies : List ResultRecord
  tvShows : List ResultRecord
  total : Nat
deriving DecidableEq, Repr

/-- The typed responses of `POST /api/discover` that are reachable in this
embedding (per-query and per-candidate failures are caught lower down:
the 500 branches would require an uncaught exception, which the embedded
total functions never produce). -/
inductive DiscoverResponse
  | configErrorPerplexity
  | configErrorTMDB
  | success (payload : SuccessPayload)
deriving DecidableEq, Repr

/-- HTTP status of a `DiscoverResponse`. -/
def respStatus : DiscoverResponse → Nat
  | .configErrorPerplexity => 400
  | .configErrorTMDB => 400
  | .success _ => 200

/-- Total count of a successful response, `none` on an error response. -/
def respTotal : DiscoverResponse → Option Nat
  | .success p => some p.total
  | _ => none

/-- Movies array of a successful response. -/
def respMovies : DiscoverResponse → Option (List ResultRecord)
  | .success p => some p.movies
  | _ => none

/-- TvShows array of a successful response. -/
def respTvShows : DiscoverResponse → Option (List ResultRecord)
  | .success p => some p.tvShows
  | _ => none

/-- The `POST /api/discover` handler: credential guards; store reads
(absent store degrades to empty collections and default preferences);
Perplexity discovery (which internally deduplicates, ranks and truncates);
history filtering; enrichment fan-out; persistence of every merged record;
partition by kind, per-partition `slice(0, recommendations_per_type)`, and
the total count.  Returns the response together with the store state after
the request. -/
def discoverHandler (env : Env) (db : Option DBData) (net : PerplexityNet)
    (tmdb : TMDBNet) (year now : Nat) : DiscoverResponse × Option DBData :=
  if isInvalidKey env.perplexityKey "your_perplexity_api_key_here" then
    (.configErrorPerplexity, db)
  else if isInvalidKey env.tmdbKey "your_tmdb_api_key_here" then
    (.configErrorTMDB, db)
  else
    let userLibrary := match db with
      | some d => d.content.filter (fun r => r.in_library)
      | none => []
    let ratings := match db with
      | some d => d.ratings
      | none => []
    let preferences := match db with
      | some d => d.prefs.getD defaultPrefs
      | none => defaultPrefs
    let historyTitles := match db with
      | some d => recentHistoryTitles d.history now
      | none => []
    let discovered :=
      discoverContentWithPerplexity net year userLibrary ratings preferences
    let filteredDiscovered := historyFilter historyTitles discovered
    let enrichedContent := filteredDiscovered.map (enrichStep tmdb)
    let db' := match db with
      | some d => some (enrichedContent.foldl
          (fun acc content => persistItem acc content now) d)
      | none => none
    let movies := enrichedContent.filter (fun item => item.type == CType.movie)
    let tvShows := enrichedContent.filter (fun item => item.type == CType.tv)
    ( .success
        { movies := movies.take preferences.recommendations_per_type
          tvShows := tvShows.take preferences.recommendations_per_type
          total := enrichedContent.length }
    , db' )

/-! ## General helper lemmas -/

theorem jsInsert_length {α : Type} (le : α → α → Bool) (a : α) (l : List α) :
    (jsInsert le a l).length = l.length + 1 := by
  induction l with
  | nil => rfl
  | cons b t ih =>
    simp only [jsInsert]
    split <;> simp [ih]

theorem jsStableSort_length {α : Type} (le : α → α → Bool) (l : List α) :
    (jsStableSort le l).length = l.length := by
  suffices h : ∀ acc : List α,
      (l.foldl (fun acc a => jsInsert le a acc) acc).length
        = acc.length + l.length by
    simpa using h []
  induction l with
  | nil => simp
  | cons b t ih =>
    intro acc
    simp only [List.foldl_cons]
    rw [ih, jsInsert_length]
    simp only [List.length_cons]
    omega

theorem mem_setAdd {s : List String} {g x : String} :
    x ∈ setAdd s g ↔ x ∈ s ∨ x = g := by
  unfold setAdd
  split <;> rename_i h
  · constructor
    · exact Or.inl
    · rintro (hx | rfl)
      · exact hx
      · exact h
  · simp

theorem nodup_setAdd {s : List String} {g : String} (h : s.Nodup) :
    (setAdd s g).Nodup := by
  unfold setAdd
  split <;> rename_i hmem
  · exact h
  · simpa [List.nodup_append] using ⟨h, hmem⟩

theorem foldl_genreStep_mem (L : List ContentRow) (acc : List String)
    (g : String) :
    g ∈ L.foldl genreStep acc ↔ g ∈ acc ∨ ∃ it ∈ L, it.genre = some g := by
  induction L generalizing acc with
  | nil => simp
  | cons it t ih =>
    simp only [List.foldl_cons, ih, genreStep]
    cases hg : it.genre with
    | none => simp [hg]
    | some gv =>
      simp only [mem_setAdd, List.mem_cons]
      constructor
      · rintro (⟨ha | rfl⟩ | ⟨i, hi, hsome⟩)
        · exact Or.inl ha
        · exact Or.inr ⟨it, Or.inl rfl, hg⟩
        · exact Or.inr ⟨i, Or.inr hi, hsome⟩
      · rintro (ha | ⟨i, hi | hi, hsome⟩)
        · exact Or.inl (Or.inl ha)
        · subst hi
          rw [hg] at hsome
          exact Or.inl (Or.inr (Option.some_injective _ hsome).symm)
        · exact Or.inr ⟨i, hi, hsome⟩

theorem foldl_genreStep_nodup (L : List ContentRow) (acc : List String)
    (h : acc.Nodup) : (L.foldl genreStep acc).Nodup := by
  induction L generalizing acc with
  | nil => simpa
  | cons it t ih =>
    simp only [List.foldl_cons, genreStep]
    cases hg : it.genre with
    | none => exact ih acc h
    | some gv => exact ih _ (nodup_setAdd h)

/-- Projection of one rating to its liked-bucket contribution. -/
def likedProj (library : List ContentRow) (r : RatingRow) : Option String :=
  (library.find? (fun it => it.id == r.content_id)).bind
    (fun content =>
      if r.rating ≥ (4 : Int) then some content.title else none)

/-- Projection of one rating to its disliked-bucket contribution. -/
def dislikedProj (library : List ContentRow) (r : RatingRow) :
    Option String :=
  (library.find? (fun it => it.id == r.content_id)).bind
    (fun content =>
      if r.rating ≥ (4 : Int) then none
      else if r.rating ≤ (2 : Int) then some content.title
      else none)

theorem foldl_ratingStep (L : List ContentRow) (R : List RatingRow)
    (acc : List String × List String) :
    R.foldl (ratingStep L) acc
      = (acc.1 ++ R.filterMap (likedProj L),
         acc.2 ++ R.filterMap (dislikedProj L)) := by
  induction R generalizing acc with
  | nil => simp
  | cons r t ih =>
    simp only [List.foldl_cons, List.filterMap_cons, ratingStep, likedProj,
      dislikedProj]
    cases hfind : L.find? (fun it => it.id == r.content_id) with
    | none => simpa [hfind] using ih acc
    | some content =>
      by_cases h4 : r.rating ≥ (4 : Int)
      · simp only [hfind, Option.some_bind, h4, if_true]
        rw [ih]
        simp
      · by_cases h2 : r.rating ≤ (2 : Int)
        · simp only [hfind, Option.some_bind, h4, h2, if_false, if_true]
          rw [ih]
          simp
        · simp only [hfind, Option.some_bind, h4, h2, if_false]
          simpa using ih acc

/-! ## C6 — Taste Profile Builder -/

/-- C6: for every library `L` and rating list `R`, `buildUserContext`
yields `isEmpty` true iff `L` is empty (independent of `R`),
`favoriteGenres` exactly the duplicate-free set of genre labels present in
`L`, liked titles exactly the found library titles of ratings ≥ 4, disliked
titles exactly those of ratings ≤ 2, and a rating whose `content_id`
matches no library item is silently ignored (dropping it does not change
the result). -/
theorem c6_taste_profile_builder (L : List ContentRow) (R : List RatingRow) :
    ((buildUserContext L R).isEmpty = true ↔ L = []) ∧
    (∀ g, g ∈ (buildUserContext L R).favoriteGenres ↔
      ∃ it ∈ L, it.genre = some g) ∧
    (buildUserContext L R).favoriteGenres.Nodup ∧
    (∀ t, t ∈ (buildUserContext L R).highRatedTitles ↔
      ∃ r ∈ R, (4 : Int) ≤ r.rating ∧
        ∃ it, L.find? (fun i => i.id == r.content_id) = some it ∧
          it.title = t) ∧
    (∀ t, t ∈ (buildUserContext L R).lowRatedTitles ↔
      ∃ r ∈ R, r.rating ≤ (2 : Int) ∧
        ∃ it, L.find? (fun i => i.id == r.content_id) = some it ∧
          it.title = t) ∧
    (∀ (R₁ R₂ : List RatingRow) (r : RatingRow),
      (∀ it ∈ L, it.id ≠ r.content_id) →
      buildUserContext L (R₁ ++ r :: R₂) = buildUserContext L (R₁ ++ R₂)) := by
  refine ⟨?_, ?_, ?_, ?_, ?_, ?_⟩
  · simp [buildUserContext]
  · intro g
    simpa [buildUserContext] using foldl_genreStep_mem L [] g
  · exact foldl_genreStep_nodup L [] List.nodup_nil
  · intro t
    simp only [buildUserContext, foldl_ratingStep, List.nil_append,
      List.mem_filterMap, likedProj]
    constructor
    · rintro ⟨r, hr, hproj⟩
      refine ⟨r, hr, ?_⟩
      cases hfind : L.find? (fun i => i.id == r.content_id) with
      | none => rw [hfind] at hproj; exact absurd hproj (by simp)
      | some it =>
        rw [hfind, Option.some_bind] at hproj
        by_cases h4 : r.rating ≥ (4 : Int)
        · rw [if_pos h4] at hproj
          exact ⟨h4, it, rfl, Option.some_injective _ hproj⟩
        · rw [if_neg h4] at hproj; exact absurd hproj (by simp)
    · rintro ⟨r, hr, h4, it, hfind, rfl⟩
      exact ⟨r, hr, by rw [hfind, Option.some_bind, if_pos h4]⟩
  · intro t
    simp only [buildUserContext, foldl_ratingStep, List.nil_append,
      List.mem_filterMap, dislikedProj]
    constructor
    · rintro ⟨r, hr, hproj⟩
      refine ⟨r, hr, ?_⟩
      cases hfind : L.find? (fun i => i.id == r.content_id) with
      | none => rw [hfind] at hproj; exact absurd hproj (by simp)
      | some it =>
        rw [hfind, Option.some_bind] at hproj
        by_cases h4 : r.rating ≥ (4 : Int)
        · rw [if_pos h4] at hproj; exact absurd hproj (by simp)
        · rw [if_neg h4] at hproj
          by_cases h2 : r.rating ≤ (2 : Int)
          · rw [if_pos h2] at hproj
            exact ⟨h2, it, rfl, Option.some_injective _ hproj⟩
          · rw [if_neg h2] at hproj; exact absurd hproj (by simp)
    · rintro ⟨r, hr, h2, it, hfind, rfl⟩
      refine ⟨r, hr, ?_⟩
      rw [hfind, Option.some_bind, if_neg (by omega), if_pos h2]
  · intro R₁ R₂ r hnone
    have hfind : L.find? (fun i => i.id == r.content_id) = none := by
      rw [List.find?_eq_none]
      intro it hit
      simpa using hnone it hit
    simp only [buildUserContext]
    rw [List.foldl_append, List.foldl_append, List.foldl_cons,
      ratingStep, hfind]

/-- Witness for C6: a concrete run in which a rating referencing a missing
library item is dropped without changing the profile. -/
theorem c6_taste_profile_builder_witness :
    buildUserContext
        [{ id := 1, title := "Dune", type := LibType.movie,
           genre := some "Sci-Fi" }]
        [{ content_id := 99, rating := 5 }]
      = buildUserContext
          [{ id := 1, title := "Dune", type := LibType.movie,
             genre := some "Sci-Fi" }] [] :=
  (c6_taste_profile_builder
      [{ id := 1, title := "Dune", type := LibType.movie,
         genre := some "Sci-Fi" }] []).2.2.2.2.2 [] []
    { content_id := 99, rating := 5 } (by decide)

/-! ## C7 — Query Generator -/

/-- C7: whenever the taste profile is empty, `generateSmartQueries` returns
exactly the fixed cold-start list (`coldStartQueries` depends only on the
current year, never on the profile, so the queries reference nothing from
the user's library); and for every profile the returned list never exceeds
the configured cap of 6 queries. -/
theorem c7_query_generator_cold_start_and_cap (year : Nat)
    (context : UserContext) (prefs : Prefs) :
    (context.isEmpty = true →
      generateSmartQueries year context prefs = coldStartQueries year) ∧
    (generateSmartQueries year context prefs).length ≤ 6 := by
  constructor
  · intro h
    simp [generateSmartQueries, h]
  · by_cases h : context.isEmpty
    · simp [generateSmartQueries, h, coldStartQueries]
    · simp only [generateSmartQueries, h, if_false, Bool.false_eq_true]
      exact List.length_take_le _ _

/-- Witness for C7: the cold-start equality at a concrete empty profile. -/
theorem c7_query_generator_cold_start_and_cap_witness :
    generateSmartQueries 2024 (buildUserContext [] []) defaultPrefs
      = coldStartQueries 2024 :=
  (c7_query_generator_cold_start_and_cap 2024 (buildUserContext [] [])
      defaultPrefs).1 (by decide)

/-! ## C8 — Deduplicator -/

/-- The claim-level dedup key: the pair (lowercase title, kind). -/
def pairKey (c : DiscoveredContent) : String × CType :=
  (jsToLower c.title, c.type)

theorem append_movie_ne_append_tv (a b : String) :
    a ++ "_movie" ≠ b ++ "_tv" := by
  intro h
  have h2 := congrArg (fun s : String => s.data.reverse.head?) h
  simp only [String.data_append, List.reverse_append] at h2
  rw [show "_movie".data.reverse = ['e', 'i', 'v', 'o', 'm', '_'] from rfl,
    show "_tv".data.reverse = ['v', 't', '_'] from rfl] at h2
  simp at h2

theorem string_append_cancel_right (a b u : String) (h : a ++ u = b ++ u) :
    a = b := by
  rw [String.ext_iff, String.data_append, String.data_append] at h
  exact String.ext (List.append_cancel_right h)

theorem underscore_append_movie (a : String) :
    a ++ "_" ++ "movie" = a ++ "_movie" := by
  rw [String.append_assoc]
  have h : "_" ++ "movie" = "_movie" := by decide
  rw [h]

theorem underscore_append_tv (a : String) :
    a ++ "_" ++ "tv" = a ++ "_tv" := by
  rw [String.append_assoc]
  have h : "_" ++ "tv" = "_tv" := by decide
  rw [h]

/-- The source's concatenated-string dedup key identifies exactly the same
candidates as the claim's (lowercase title, kind) pair. -/
theorem dedupKey_eq_iff (c d : DiscoveredContent) :
    dedupKey c = dedupKey d ↔ pairKey c = pairKey d := by
  cases hc : c.type <;> cases hd : d.type <;>
    simp only [dedupKey, pairKey, hc, hd, Prod.mk.injEq,
      underscore_append_movie, underscore_append_tv]
  · exact ⟨fun h => ⟨string_append_cancel_right _ _ _ h, trivial⟩,
      fun h => by rw [h.1]⟩
  · exact ⟨fun h => absurd h (append_movie_ne_append_tv _ _),
      fun h => absurd h.2 (by simp)⟩
  · exact ⟨fun h => absurd h.symm (append_movie_ne_append_tv _ _),
      fun h => absurd h.2 (by simp)⟩
  · exact ⟨fun h => ⟨string_append_cancel_right _ _ _ h, trivial⟩,
      fun h => by rw [h.1]⟩

/-- Reference first-occurrence filter, written from the claim: keep each
candidate and drop every later candidate with the same (lowercase title,
kind) key, regardless of any other field. -/
def keepFirstBy : List DiscoveredContent → List DiscoveredContent
  | [] => []
  | c :: rest =>
    c :: keepFirstBy (rest.filter (fun d => !(pairKey d == pairKey c)))
termination_by l => l.length
decreasing_by
  simp only [List.length_cons]
  exact Nat.lt_succ_of_le (List.length_filter_le _ _)

theorem keepFirstBy_nil : keepFirstBy [] = [] := by
  simp [keepFirstBy]

theorem keepFirstBy_cons (c : DiscoveredContent)
    (rest : List DiscoveredContent) :
    keepFirstBy (c :: rest)
      = c :: keepFirstBy (rest.filter (fun d => !(pairKey d == pairKey c))) := by
  simp [keepFirstBy]

theorem dedupAux_eq_keepFirstBy :
    ∀ (n : Nat) (l : List DiscoveredContent), l.length ≤ n →
      ∀ seen : List String,
        dedupAux seen l
          = keepFirstBy (l.filter (fun c => !(seen.contains (dedupKey c)))) := by
  intro n
  induction n with
  | zero =>
    intro l hl seen
    rw [List.length_eq_zero.mp (Nat.le_zero.mp hl)]
    simp [dedupAux, keepFirstBy_nil]
  | succ m ih =>
    intro l hl seen
    cases l with
    | nil => simp [dedupAux, keepFirstBy_nil]
    | cons c rest =>
      simp only [List.length_cons, Nat.succ_le_succ_iff] at hl
      by_cases hseen : seen.contains (dedupKey c)
      · simp only [dedupAux, List.filter_cons]
        rw [hseen, if_pos rfl, if_neg (show ¬((!true) = true) by decide)]
        exact ih rest hl seen
      · have hf : seen.contains (dedupKey c) = false :=
          Bool.eq_false_iff.mpr hseen
        simp only [dedupAux, List.filter_cons]
        rw [hf, if_neg (show ¬(false = true) by decide),
          if_pos (show (!false) = true by decide)]
        rw [keepFirstBy_cons]
        congr 1
        rw [ih rest hl (dedupKey c :: seen), List.filter_filter]
        apply congrArg keepFirstBy
        apply List.filter_congr
        intro d _
        have hkey : (dedupKey d == dedupKey c) = (pairKey d == pairKey c) := by
          by_cases h : dedupKey d = dedupKey c
          · have h2 : pairKey d = pairKey c := (dedupKey_eq_iff d c).mp h
            simp [h, h2]
          · have h2 : ¬ pairKey d = pairKey c :=
              fun hp => h ((dedupKey_eq_iff d c).mpr hp)
            simp [h, h2]
        show (!((dedupKey d == dedupKey c) || seen.contains (dedupKey d)))
            = (!(pairKey d == pairKey c) && !(seen.contains (dedupKey d)))
        rw [Bool.not_or, hkey]

/-- C8: `deduplicateContent` keeps, for each (lowercase title, kind) key,
exactly the first occurrence in input order (`keepFirstBy`, which drops
every later candidate with the same key regardless of its other fields);
the concatenated key of the source coincides with the (lowercase title,
kind) pair; a later same-kind case-variant is dropped even when it carries
a higher confidence and a stream reference; and two candidates sharing a
title but differing in kind are both kept. -/
theorem c8_deduplicator_first_wins :
    (∀ l : List DiscoveredContent, deduplicateContent l = keepFirstBy l) ∧
    (∀ c d : DiscoveredContent,
      dedupKey c = dedupKey d ↔
        jsToLower c.title = jsToLower d.title ∧ c.type = d.type) ∧
    deduplicateContent
        [{ title := "Dune", type := CType.movie, confidence := mkRat 1 2 },
         { title := "dune", type := CType.movie, confidence := mkRat 9 10,
           streamUrl := some "https://example.com/dune" }]
      = [{ title := "Dune", type := CType.movie, confidence := mkRat 1 2 }] ∧
    deduplicateContent
        [{ title := "Dune", type := CType.movie, confidence := mkRat 1 2 },
         { title := "Dune", type := CType.tv, confidence := mkRat 1 2 }]
      = [{ title := "Dune", type := CType.movie, confidence := mkRat 1 2 },
         { title := "Dune", type := CType.tv, confidence := mkRat 1 2 }] := by
  refine ⟨?_, ?_, by decide, by decide⟩
  · intro l
    have h := dedupAux_eq_keepFirstBy l.length l le_rfl []
    simpa [deduplicateContent, List.filter_true] using h
  · intro c d
    rw [dedupKey_eq_iff]
    simp [pairKey, Prod.ext_iff]

/-! ## C9 — History Filter -/

/-- C9: the handler's history filter keeps a candidate iff no history entry
recommended within the trailing 30-day window shares its lowercase title;
the comparison is exact whole-title equality after lowercasing, independent
of the candidate's kind; concretely, a history entry `Inception` shown 5
days ago removes a candidate titled `INCEPTION` while `Inception 2` is
kept. -/
theorem c9_history_filter_title_equality (history : List HistRow)
    (now : Nat) (cands : List DiscoveredContent) :
    (∀ c, c ∈ historyFilter (recentHistoryTitles history now) cands ↔
      c ∈ cands ∧
        ¬ ∃ h ∈ history, now < h.recommended_at + 30 ∧
            jsToLower h.title = jsToLower c.title) ∧
    historyFilter
        (recentHistoryTitles
          [{ title := "Inception", type := LibType.movie,
             recommended_at := 95, shown_count := 1 }] 100)
        [{ title := "INCEPTION", type := CType.movie },
         { title := "Inception 2", type := CType.tv }]
      = [{ title := "Inception 2", type := CType.tv }] := by
  constructor
  · intro c
    simp [historyFilter, recentHistoryTitles, List.mem_filter]
  · decide

/-! ## C5 — Discovery Client failure isolation -/

/-- A Perplexity call outcome that the source treats as a failure: a
transport-level exception or a non-success HTTP status. -/
def isFailureOutcome : FetchOutcome → Bool
  | .throws => true
  | .resp ok _ => !ok

/-- Example candidate used by the C5 scenario. -/
def exDune : DiscoveredContent :=
  { title := "Dune", type := CType.movie, confidence := mkRat 9 10 }

/-- Example candidate used by the C5 scenario. -/
def exWire : DiscoveredContent :=
  { title := "The Wire", type := CType.tv, confidence := mkRat 9 10 }

/-- Example candidate used by the C5 scenario. -/
def exParasite : DiscoveredContent :=
  { title := "Parasite", type := CType.movie, confidence := mkRat 8 10 }

/-- Example oracle: queries q1 and q2 fail with a non-success status, the
remaining queries answer one candidate each. -/
def exNetTwoOfFiveFail : PerplexityNet := fun q =>
  if q = "q1" || q = "q2" then .resp false none
  else if q = "q3" then .resp true (some (.jsonArr [exDune]))
  else if q = "q4" then .resp true (some (.jsonArr [exWire]))
  else .resp true (some (.jsonArr [exParasite]))

/-- Example oracle: every query throws at the transport level. -/
def exNetAllFail : PerplexityNet := fun _ => .throws

/-- C5: a query whose call throws or returns a non-success status
contributes `[]`; each query's contribution depends only on that query's
own outcome (isolation across the concurrent fan-out); in the concrete 2-of-5
failure scenario the three healthy queries still contribute their joined
candidates; and when every query fails `discoverContent` returns `[]`
rather than failing. -/
theorem c5_discovery_client_failure_isolation :
    (∀ (net : PerplexityNet) (q : String),
      isFailureOutcome (net q) = true → searchForContent net q = []) ∧
    (∀ (net net' : PerplexityNet) (q : String), net q = net' q →
      searchForContent net q = searchForContent net' q) ∧
    (["q1", "q2", "q3", "q4", "q5"].map (searchForContent exNetTwoOfFiveFail)
      = [[], [], [exDune], [exWire], [exParasite]]) ∧
    (∀ (net : PerplexityNet) (year : Nat) (lib : List ContentRow)
        (rat : List RatingRow) (prefs : Prefs) (count : Nat),
      (∀ q, isFailureOutcome (net q) = true) →
      discoverContent net year lib rat prefs count = []) := by
  have hfail : ∀ (net : PerplexityNet) (q : String),
      isFailureOutcome (net q) = true → searchForContent net q = [] := by
    intro net q h
    unfold searchForContent
    cases ho : net q with
    | throws => rfl
    | resp ok content =>
      rw [ho] at h
      simp only [isFailureOutcome] at h
      simp [h]
  refine ⟨hfail, ?_, by decide, ?_⟩
  · intro net net' q h
    unfold searchForContent
    rw [h]
  · intro net year lib rat prefs count h
    have hmap : ∀ qs : List String,
        (qs.map (searchForContent net)).flatten = [] := by
      intro qs
      induction qs with
      | nil => rfl
      | cons q t ih => simp [hfail net q (h q), ih]
    unfold discoverContent
    dsimp only
    rw [hmap]
    simp [deduplicateContent, dedupAux, rankContent, jsStableSort]

/-- Witness for C5: the all-failures oracle yields the empty result list. -/
theorem c5_discovery_client_failure_isolation_witness :
    discoverContent exNetAllFail 2024 [] [] defaultPrefs 12 = [] :=
  c5_discovery_client_failure_isolation.2.2.2 exNetAllFail 2024 [] []
    defaultPrefs 12 (fun _ => rfl)

/-! ## C4 — configuration errors fail fast -/

/-- Example oracle: every TMDB operation throws. -/
def exTMDBDown : TMDBNet :=
  { search := fun _ _ => .throws
    details := fun _ _ => .throws
    providers := fun _ _ => .throws
    genres := .throws }

/-- C4: whenever either credential is absent/placeholder, the handler
returns a typed configuration error with status 400, the store is left
untouched, and the response is independent of the store contents and of
both network oracles (so no store access and no network call can influence
it — the guard runs before any of them). -/
theorem c4_config_error_before_any_call (env : Env) (db : Option DBData)
    (net : PerplexityNet) (tmdb : TMDBNet) (year now : Nat)
    (h : isInvalidKey env.perplexityKey "your_perplexity_api_key_here" = true
      ∨ isInvalidKey env.tmdbKey "your_tmdb_api_key_here" = true) :
    ((discoverHandler env db net tmdb year now).fst
        = DiscoverResponse.configErrorPerplexity
      ∨ (discoverHandler env db net tmdb year now).fst
        = DiscoverResponse.configErrorTMDB) ∧
    respStatus (discoverHandler env db net tmdb year now).fst = 400 ∧
    (discoverHandler env db net tmdb year now).snd = db ∧
    (∀ (db' : Option DBData) (net' : PerplexityNet) (tmdb' : TMDBNet),
      (discoverHandler env db' net' tmdb' year now).fst
        = (discoverHandler env db net tmdb year now).fst) := by
  by_cases h1 :
      isInvalidKey env.perplexityKey "your_perplexity_api_key_here" = true
  · simp [discoverHandler, h1, respStatus]
  · have h2 : isInvalidKey env.tmdbKey "your_tmdb_api_key_here" = true :=
      h.resolve_left h1
    simp [discoverHandler, h1, h2, respStatus]

/-- Witness for C4: a missing search credential at a concrete store and
concrete oracles. -/
theorem c4_config_error_before_any_call_witness :
    respStatus (discoverHandler { perplexityKey := none, tmdbKey := some "tk" }
        (some {}) exNetAllFail exTMDBDown 2024 100).fst = 400 ∧
    (discoverHandler { perplexityKey := none, tmdbKey := some "tk" }
        (some {}) exNetAllFail exTMDBDown 2024 100).snd = some {} :=
  ⟨(c4_config_error_before_any_call
        { perplexityKey := none, tmdbKey := some "tk" } (some {}) exNetAllFail
        exTMDBDown 2024 100 (Or.inl (by decide))).2.1,
    (c4_config_error_before_any_call
        { perplexityKey := none, tmdbKey := some "tk" } (some {}) exNetAllFail
        exTMDBDown 2024 100 (Or.inl (by decide))).2.2.1⟩

/-! ## Handler characterization helpers -/

/-- The handler's library read (`SELECT * FROM content WHERE in_library =
TRUE`, empty when the store is absent). -/
def libraryOf : Option DBData → List ContentRow
  | some d => d.content.filter (fun r => r.in_library)
  | none => []

/-- The handler's ratings read (empty when the store is absent). -/
def ratingsOf : Option DBData → List RatingRow
  | some d => d.ratings
  | none => []

/-- The handler's preferences read (defaults when the store is absent or
holds no row). -/
def prefsOf : Option DBData → Prefs
  | some d => d.prefs.getD defaultPrefs
  | none => defaultPrefs

/-- The handler's recent-history title read. -/
def historyTitlesOf (db : Option DBData) (now : Nat) : List String :=
  match db with
  | some d => recentHistoryTitles d.history now
  | none => []

/-- The enriched-record list the handler actually computes, in source
order: Discovery Client (which internally deduplicates, ranks and truncates),
then History Filter, then Metadata Enricher. -/
def codeOrderPipeline (net : PerplexityNet) (tmdb : TMDBNet) (year : Nat)
    (lib : List ContentRow) (rat : List RatingRow) (prefs : Prefs)
    (historyTitles : List String) : List ResultRecord :=
  (historyFilter historyTitles
      (discoverContentWithPerplexity net year lib rat prefs)).map
    (enrichStep tmdb)

/-- The pipeline in the order the claim states: Discovery Client raw
output, then History Filter, then Deduplicator/Ranker, then Metadata
Enricher over the survivors. -/
def claimOrderPipeline (net : PerplexityNet) (tmdb : TMDBNet) (year : Nat)
    (lib : List ContentRow) (rat : List RatingRow) (prefs : Prefs)
    (historyTitles : List String) : List ResultRecord :=
  let context := buildUserContext lib rat
  let queries := generateSmartQueries year context prefs
  let raw := (queries.map (searchForContent net)).flatten
  let filtered := historyFilter historyTitles raw
  (rankContent (deduplicateContent filtered)).map (enrichStep tmdb)

/-- Store state after persisting each pipeline record in order. -/
def dbAfter (db : Option DBData) (records : List ResultRecord) (now : Nat) :
    Option DBData :=
  match db with
  | some d =>
    some (records.foldl (fun acc content => persistItem acc content now) d)
  | none => none

theorem discoverHandler_valid (env : Env) (db : Option DBData)
    (net : PerplexityNet) (tmdb : TMDBNet) (year now : Nat)
    (h1 : isInvalidKey env.perplexityKey "your_perplexity_api_key_here"
      = false)
    (h2 : isInvalidKey env.tmdbKey "your_tmdb_api_key_here" = false) :
    discoverHandler env db net tmdb year now
      = (DiscoverResponse.success
          { movies := ((codeOrderPipeline net tmdb year (libraryOf db)
                (ratingsOf db) (prefsOf db) (historyTitlesOf db now)).filter
                  (fun item => item.type == CType.movie)).take
                (prefsOf db).recommendations_per_type
            tvShows := ((codeOrderPipeline net tmdb year (libraryOf db)
                (ratingsOf db) (prefsOf db) (historyTitlesOf db now)).filter
                  (fun item => item.type == CType.tv)).take
                (prefsOf db).recommendations_per_type
            total := (codeOrderPipeline net tmdb year (libraryOf db)
                (ratingsOf db) (prefsOf db) (historyTitlesOf db now)).length }
        , dbAfter db
            (codeOrderPipeline net tmdb year (libraryOf db) (ratingsOf db)
              (prefsOf db) (historyTitlesOf db now)) now) := by
  unfold discoverHandler
  rw [h1, h2]
  simp only [Bool.false_eq_true, if_false]
  rfl

/-! ## C1 — stage order of the Discovery Orchestrator -/

/-- Example 13 distinct movie candidates, all of equal confidence and
without stream references. -/
def exThirteen : List DiscoveredContent :=
  ["T01", "T02", "T03", "T04", "T05", "T06", "T07", "T08", "T09", "T10",
   "T11", "T12", "T13"].map
    (fun t => { title := t, type := CType.movie, confidence := mkRat 1 2 })

/-- Example oracle: every query answers the same 13 candidates. -/
def exNet13 : PerplexityNet := fun _ =>
  .resp true (some (.jsonArr exThirteen))

/-- Example history row: T01 recommended 5 days ago (within the 30-day
window at `now = 100`). -/
def exHistT01 : HistRow :=
  { title := "T01", type := LibType.movie, recommended_at := 95,
    shown_count := 1 }

/-- Example store: empty library, one recent history entry for T01. -/
def exDB13 : DBData := { history := [exHistT01] }

/-- Example environment with both credentials configured. -/
def exEnvOK : Env := { perplexityKey := some "pk", tmdbKey := some "tk" }

/-- Counterexample to C1 as stated: the handler applies the History Filter
to the already deduplicated, ranked and truncated Discovery Client output,
not to its raw candidate output.  With 13 distinct candidates, a 12-item
truncation and one history hit, the code enriches 11 survivors (total =
11), whereas the claimed order (Discovery Client → History Filter →
Deduplicator/Ranker → Metadata Enricher) yields 12 — so the handler's
response does not match the claimed stage order. -/
theorem c1_stage_order_counterexample :
    respTotal (discoverHandler exEnvOK (some exDB13) exNet13 exTMDBDown
        2024 100).fst = some 11 ∧
    (claimOrderPipeline exNet13 exTMDBDown 2024 (libraryOf (some exDB13))
        (ratingsOf (some exDB13)) (prefsOf (some exDB13))
        (historyTitlesOf (some exDB13) 100)).length = 12 := by
  constructor
  · decide
  · decide

/-- C1 (amended): the stage order of the handler is Discovery Client
(internally: flatten of per-query results, Deduplicator, Ranker,
truncation), then History Filter over that output, then Metadata Enricher
over the survivors; the response is built from exactly that pipeline
(`codeOrderPipeline`). -/
theorem c1_stage_order_amended (env : Env) (db : Option DBData)
    (net : PerplexityNet) (tmdb : TMDBNet) (year now : Nat)
    (h1 : isInvalidKey env.perplexityKey "your_perplexity_api_key_here"
      = false)
    (h2 : isInvalidKey env.tmdbKey "your_tmdb_api_key_here" = false) :
    respTotal (discoverHandler env db net tmdb year now).fst
      = some ((codeOrderPipeline net tmdb year (libraryOf db) (ratingsOf db)
          (prefsOf db) (historyTitlesOf db now)).length) ∧
    respMovies (discoverHandler env db net tmdb year now).fst
      = some (((codeOrderPipeline net tmdb year (libraryOf db)
          (ratingsOf db) (prefsOf db) (historyTitlesOf db now)).filter
            (fun item => item.type == CType.movie)).take
          (prefsOf db).recommendations_per_type) ∧
    respTvShows (discoverHandler env db net tmdb year now).fst
      = some (((codeOrderPipeline net tmdb year (libraryOf db)
          (ratingsOf db) (prefsOf db) (historyTitlesOf db now)).filter
            (fun item => item.type == CType.tv)).take
          (prefsOf db).recommendations_per_type) := by
  rw [discoverHandler_valid env db net tmdb year now h1 h2]
  exact ⟨rfl, rfl, rfl⟩

/-- Witness for C1 (amended): concrete valid credentials, a concrete store
and concrete oracles. -/
theorem c1_stage_order_amended_witness :
    respTotal (discoverHandler exEnvOK (some exDB13) exNet13 exTMDBDown
        2024 100).fst
      = some ((codeOrderPipeline exNet13 exTMDBDown 2024
          (libraryOf (some exDB13)) (ratingsOf (some exDB13))
          (prefsOf (some exDB13)) (historyTitlesOf (some exDB13) 100)).length) :=
  (c1_stage_order_amended exEnvOK (some exDB13) exNet13 exTMDBDown 2024 100
      (by decide) (by decide)).1

/-! ## C2 — Metadata Enricher failure semantics -/

/-- A watch-providers outcome that fails at the transport level. -/
def providersFailed : ProvidersOutcome → Bool
  | .throws => true
  | .notOk => true
  | .ok _ => false

/-- Example oracle: the catalog search succeeds with one hit, but the
details fetch throws at the transport level. -/
def exTMDBDetailsThrow : TMDBNet :=
  { search := fun _ _ => .ok (some [{ id := 7 }])
    details := fun _ _ => .throws
    providers := fun _ _ => .throws
    genres := .throws }

/-- Counterexample to C2 as stated: with step 1 succeeding (the search
returns a hit), a transport failure in step 2 (the details fetch) makes
`enrichContent` return null — the enrichment aborts instead of completing
with that step's contribution degraded. -/
theorem c2_enricher_counterexample :
    (searchContent exTMDBDetailsThrow "Dune" CType.movie).isSome = true ∧
    enrichContent exTMDBDetailsThrow "Dune" CType.movie = none := by
  decide

/-- C2 (amended): steps 1 and 2 both short-circuit — a missing search
result or a failed details fetch yields null; once the search has a hit and
the details fetch succeeds, enrichment always completes with a record, for
every providers/genres outcome, and a transport failure of the
watch-provider call degrades that record's provider list to empty (with the
synthesized URLs those of an empty provider list); a genre-lookup exception
degrades the lookup table to empty, so the record's genres fall back to the
details payload (or `[]` when that is absent and no id resolves). -/
theorem c2_enricher_degradation_amended (net : TMDBNet) (title : String)
    (type : CType) :
    (searchContent net title type = none →
      enrichContent net title type = none) ∧
    (∀ sr, searchContent net title type = some sr →
      getDetails net sr.id type = none →
      enrichContent net title type = none) ∧
    (∀ sr d, searchContent net title type = some sr →
      getDetails net sr.id type = some d →
      ∃ e, enrichContent net title type = some e ∧
        e.type = type ∧
        e.title = (match type with
          | .movie => sr.title.getD title
          | .tv => sr.name.getD title) ∧
        (providersFailed (net.providers sr.id type) = true →
          e.providers = [] ∧
          e.stream_urls = generateStreamUrls e.title []) ∧
        (net.genres = GenresOutcome.throws →
          e.genres = resolveGenres d sr [])) := by
  refine ⟨?_, ?_, ?_⟩
  · intro h
    unfold enrichContent
    rw [h]
  · intro sr hs hd
    unfold enrichContent
    rw [hs]
    dsimp only
    rw [hd]
  · intro sr d hs hd
    have hprov : providersFailed (net.providers sr.id type) = true →
        getWatchProviders net sr.id type = [] := by
      intro hp
      unfold getWatchProviders
      cases hpo : net.providers sr.id type with
      | throws => rfl
      | notOk => rfl
      | ok r => rw [hpo] at hp; exact absurd hp (by simp [providersFailed])
    have hgen : net.genres = GenresOutcome.throws → getGenres net = [] := by
      intro hg
      unfold getGenres
      rw [hg]
    unfold enrichContent
    rw [hs]
    dsimp only
    rw [hd]
    dsimp only
    refine ⟨_, rfl, rfl, rfl, ?_, ?_⟩
    · intro hp
      exact ⟨hprov hp, by rw [hprov hp]⟩
    · intro hg
      rw [hgen hg]

/-- Example oracle: search and details succeed, providers and genres
throw. -/
def exTMDBPartial : TMDBNet :=
  { search := fun _ _ => .ok (some [{ id := 7 }])
    details := fun _ _ => .ok {}
    providers := fun _ _ => .throws
    genres := .throws }

/-- Witness for C2 (amended): with the partial oracle, enrichment completes
and the provider list is degraded to empty. -/
theorem c2_enricher_degradation_amended_witness :
    (enrichContent exTMDBPartial "Dune" CType.movie).isSome = true := by
  obtain ⟨e, he, -⟩ :=
    (c2_enricher_degradation_amended exTMDBPartial "Dune" CType.movie).2.2
      { id := 7 } {} (by decide) (by decide)
  rw [he]
  rfl

/-! ## C3 — truncation and output bounds -/

theorem discoverHandler_invalid_perp (env : Env) (db : Option DBData)
    (net : PerplexityNet) (tmdb : TMDBNet) (year now : Nat)
    (h1 : isInvalidKey env.perplexityKey "your_perplexity_api_key_here"
      = true) :
    discoverHandler env db net tmdb year now
      = (DiscoverResponse.configErrorPerplexity, db) := by
  unfold discoverHandler
  rw [h1]
  simp

theorem discoverHandler_invalid_tmdb (env : Env) (db : Option DBData)
    (net : PerplexityNet) (tmdb : TMDBNet) (year now : Nat)
    (h1 : isInvalidKey env.perplexityKey "your_perplexity_api_key_here"
      = false)
    (h2 : isInvalidKey env.tmdbKey "your_tmdb_api_key_here" = true) :
    discoverHandler env db net tmdb year now
      = (DiscoverResponse.configErrorTMDB, db) := by
  unfold discoverHandler
  rw [h1, h2]
  simp

theorem discoverWithPerplexity_length_le (net : PerplexityNet) (year : Nat)
    (lib : List ContentRow) (rat : List RatingRow) (prefs : Prefs) :
    (discoverContentWithPerplexity net year lib rat prefs).length
      ≤ (if prefs.recommendations_per_type == 0 then 12
         else prefs.recommendations_per_type) := by
  unfold discoverContentWithPerplexity discoverContent
  dsimp only
  split <;> exact List.length_take_le _ _

theorem filter_type_partition (l : List ResultRecord) :
    (l.filter (fun item => item.type == CType.movie)).length
      + (l.filter (fun item => item.type == CType.tv)).length = l.length := by
  induction l with
  | nil => rfl
  | cons a t ih =>
    cases h : a.type <;> simp [List.filter_cons, h, ih] <;> omega

/-- Example oracle: every query answers the single candidate `exDune`. -/
def exNetDune : PerplexityNet := fun _ =>
  .resp true (some (.jsonArr [exDune]))

/-- Example store whose preferences row carries a zero per-type count. -/
def exDBZero : DBData := { prefs := some { recommendations_per_type := 0 } }

/-- Example store whose preferences row carries a per-type count of 5. -/
def exDB5 : DBData := { prefs := some { recommendations_per_type := 5 } }

/-- Counterexample to C3 as stated: with a stored
`recommendations_per_type` of 0 (a falsy value), the Discovery Client
truncates to 12 — not to the preference value — and the returned `total`
is 1, exceeding the per-type count of 0; so neither "truncates to
preferences.recommendations_per_type" nor "total never exceeds that count"
holds at this request. -/
theorem c3_truncation_counterexample :
    (prefsOf (some exDBZero)).recommendations_per_type = 0 ∧
    respTotal (discoverHandler exEnvOK (some exDBZero) exNetDune exTMDBDown
        2024 100).fst = some 1 := by
  decide

/-- C3 (amended): the Discovery Client truncates its deduplicated, ranked
list to `recommendations_per_type` when that value is nonzero (12 when it
is 0, since `|| 12` treats 0 as falsy) before history filtering and
enrichment run; consequently, for every request whose stored per-type count
`n` is positive, the success response's `movies` and `tvShows` arrays
contain at most `n` items combined and the returned `total` never exceeds
`n`. -/
theorem c3_truncation_bounds_amended (env : Env) (db : Option DBData)
    (net : PerplexityNet) (tmdb : TMDBNet) (year now n : Nat)
    (hn : (prefsOf db).recommendations_per_type = n) (hpos : 0 < n) :
    (∀ t, respTotal (discoverHandler env db net tmdb year now).fst = some t →
      t ≤ n) ∧
    (∀ ms ts, respMovies (discoverHandler env db net tmdb year now).fst
        = some ms →
      respTvShows (discoverHandler env db net tmdb year now).fst = some ts →
      ms.length + ts.length ≤ n) ∧
    (∀ (lib : List ContentRow) (rat : List RatingRow) (prefs : Prefs),
      (discoverContentWithPerplexity net year lib rat prefs).length
        ≤ (if prefs.recommendations_per_type == 0 then 12
           else prefs.recommendations_per_type)) := by
  have hcount :
      (if (prefsOf db).recommendations_per_type == 0 then 12
       else (prefsOf db).recommendations_per_type) = n := by
    rw [hn]
    have : (n == 0) = false := by
      cases n with
      | zero => exact absurd hpos (by simp)
      | succ m => rfl
    rw [this]
    rfl
  have hplen :
      (codeOrderPipeline net tmdb year (libraryOf db) (ratingsOf db)
        (prefsOf db) (historyTitlesOf db now)).length ≤ n := by
    unfold codeOrderPipeline historyFilter
    rw [List.length_map]
    calc (List.filter _ (discoverContentWithPerplexity net year
            (libraryOf db) (ratingsOf db) (prefsOf db))).length
        ≤ (discoverContentWithPerplexity net year (libraryOf db)
            (ratingsOf db) (prefsOf db)).length :=
          List.length_filter_le _ _
      _ ≤ _ := by
          rw [← hcount]
          exact discoverWithPerplexity_length_le net year _ _ _
  cases hv1 : isInvalidKey env.perplexityKey "your_perplexity_api_key_here"
  case true =>
    rw [discoverHandler_invalid_perp env db net tmdb year now hv1]
    refine ⟨?_, ?_, ?_⟩
    · intro t ht; exact absurd ht (by simp [respTotal])
    · intro ms ts hms _; exact absurd hms (by simp [respMovies])
    · intro lib rat prefs; exact discoverWithPerplexity_length_le _ _ _ _ _
  case false =>
    cases hv2 : isInvalidKey env.tmdbKey "your_tmdb_api_key_here"
    case true =>
      rw [discoverHandler_invalid_tmdb env db net tmdb year now hv1 hv2]
      refine ⟨?_, ?_, ?_⟩
      · intro t ht; exact absurd ht (by simp [respTotal])
      · intro ms ts hms _; exact absurd hms (by simp [respMovies])
      · intro lib rat prefs
        exact discoverWithPerplexity_length_le _ _ _ _ _
    case false =>
      rw [discoverHandler_valid env db net tmdb year now hv1 hv2]
      refine ⟨?_, ?_, ?_⟩
      · intro t ht
        simp only [respTotal, Option.some.injEq] at ht
        exact ht ▸ hplen
      · intro ms ts hms hts
        simp only [respMovies, Option.some.injEq] at hms
        simp only [respTvShows, Option.some.injEq] at hts
        subst hms hts
        calc (List.take (prefsOf db).recommendations_per_type _).length
              + (List.take (prefsOf db).recommendations_per_type _).length
            ≤ (List.filter (fun item => item.type == CType.movie)
                  (codeOrderPipeline net tmdb year (libraryOf db)
                    (ratingsOf db) (prefsOf db)
                    (historyTitlesOf db now))).length
              + (List.filter (fun item => item.type == CType.tv)
                  (codeOrderPipeline net tmdb year (libraryOf db)
                    (ratingsOf db) (prefsOf db)
                    (historyTitlesOf db now))).length := by
              apply Nat.add_le_add
              · rw [List.length_take]; exact Nat.min_le_right _ _
              · rw [List.length_take]; exact Nat.min_le_right _ _
          _ = (codeOrderPipeline net tmdb year (libraryOf db) (ratingsOf db)
                (prefsOf db) (historyTitlesOf db now)).length :=
              filter_type_partition _
          _ ≤ n := hplen
      · intro lib rat prefs
        exact discoverWithPerplexity_length_le _ _ _ _ _

/-- Witness for C3 (amended): with a stored per-type count of 5 and one
discovered candidate, the response total (1) is within the bound. -/
theorem c3_truncation_bounds_amended_witness :
    respTotal (discoverHandler exEnvOK (some exDB5) exNetDune exTMDBDown
        2024 100).fst = some 1 ∧ 1 ≤ 5 :=
  ⟨by decide,
    (c3_truncation_bounds_amended exEnvOK (some exDB5) exNetDune exTMDBDown
        2024 100 5 (by decide) (by decide)).1 1 (by decide)⟩

/-! ## C10 — recommendation-history upsert keying -/

/-- Example pre-existing history row titled `Inception`. -/
def exHistInception : HistRow :=
  { title := "Inception", type := LibType.movie, recommended_at := 50,
    shown_count := 1 }

/-- Example discovery result whose title differs from the stored history
row only in case. -/
def exRecInceptionCaps : ResultRecord :=
  { title := "INCEPTION", type := CType.movie, source := "recommendation" }

/-- Counterexample to C10 as stated: the `recommendation_history` UNIQUE
constraint on `title` uses the default case-sensitive BINARY collation and
the handler binds the title unmodified, so persisting `INCEPTION` over an
existing `Inception` row inserts a second row (and leaves the first row's
shown-count at 1) — two rows then share the same lowercase title,
violating the claimed lowercase-title keying. -/
theorem c10_history_upsert_counterexample :
    jsToLower exRecInceptionCaps.title = jsToLower exHistInception.title ∧
    (upsertHistory [exHistInception] exRecInceptionCaps 100).length = 2 ∧
    (upsertHistory [exHistInception] exRecInceptionCaps 100).map
        (fun r => r.shown_count) = [1, 1] ∧
    (upsertHistory [exHistInception] exRecInceptionCaps 100).map
        (fun r => jsToLower r.title) = ["inception", "inception"] := by
  decide

/-- C10 (amended): the history upsert keys on the exact (case-sensitive)
title: when some row carries exactly the persisted title, no row is
inserted — every such row has its shown-count incremented and its
timestamp refreshed, the others unchanged; when no row matches exactly, a
single fresh row (shown-count 1, current timestamp) is appended; and
exact-title uniqueness of the table is preserved by the upsert. -/
theorem c10_history_upsert_amended (history : List HistRow)
    (content : ResultRecord) (now : Nat) :
    ((∃ r ∈ history, r.title = content.title) →
      upsertHistory history content now
        = history.map (fun r =>
            if r.title == content.title then
              { r with shown_count := r.shown_count + 1,
                       recommended_at := now }
            else r)) ∧
    ((∀ r ∈ history, r.title ≠ content.title) →
      upsertHistory history content now
        = history ++
            [{ tmdb_id := strOrNull content.tmdb_id
               title := content.title
               type := content.type.toLibType
               genre := genreField content.genres
               recommended_at := now
               shown_count := 1 }]) ∧
    ((history.map (fun r => r.title)).Nodup →
      ((upsertHistory history content now).map (fun r => r.title)).Nodup) := by
  refine ⟨?_, ?_, ?_⟩
  · intro hex
    have hany : history.any (fun r => r.title == content.title) = true := by
      rw [List.any_eq_true]
      obtain ⟨r, hr, he⟩ := hex
      exact ⟨r, hr, by simp [he]⟩
    unfold upsertHistory
    rw [hany]
    simp
  · intro hnone
    have hany : history.any (fun r => r.title == content.title) = false := by
      rw [← Bool.not_eq_true, List.any_eq_true]
      rintro ⟨r, hr, he⟩
      exact hnone r hr (by simpa using he)
    unfold upsertHistory
    rw [hany]
    simp
  · intro hnd
    by_cases hex : ∃ r ∈ history, r.title = content.title
    · have hany : history.any (fun r => r.title == content.title) = true := by
        rw [List.any_eq_true]
        obtain ⟨r, hr, he⟩ := hex
        exact ⟨r, hr, by simp [he]⟩
      unfold upsertHistory
      rw [hany]
      simp only [if_true]
      have : (history.map (fun r =>
          if r.title == content.title then
            { r with shown_count := r.shown_count + 1,
                     recommended_at := now }
          else r)).map (fun r => r.title)
          = history.map (fun r => r.title) := by
        rw [List.map_map]
        apply List.map_congr_left
        intro r _
        by_cases h : r.title = content.title
        · simp [h]
        · simp [h]
      rw [this]
      exact hnd
    · push_neg at hex
      have hany : history.any (fun r => r.title == content.title) = false := by
        rw [← Bool.not_eq_true, List.any_eq_true]
        rintro ⟨r, hr, he⟩
        exact hex r hr (by simpa using he)
      unfold upsertHistory
      rw [hany]
      simp only [Bool.false_eq_true, if_false, List.map_append,
        List.map_cons, List.map_nil]
      rw [List.nodup_append]
      refine ⟨hnd, List.nodup_singleton _, ?_⟩
      intro a ha hb
      simp only [List.mem_singleton] at hb
      subst hb
      obtain ⟨r, hr, he⟩ := List.mem_map.mp ha
      exact hex r hr he

/-- Witness for C10 (amended): identically-cased rediscovery of
`Inception` increments the stored row in place. -/
theorem c10_history_upsert_amended_witness :
    upsertHistory [exHistInception]
        { title := "Inception", type := CType.movie,
          source := "recommendation" } 100
      = [{ exHistInception with shown_count := 2, recommended_at := 100 }] := by
  have h := (c10_history_upsert_amended [exHistInception]
      { title := "Inception", type := CType.movie,
        source := "recommendation" } 100).1
    (by exact ⟨exHistInception, by decide, by decide⟩)
  rw [h]
  decide

end CassiusTV
